import Mathlib

/-!
Shallow embedding of `ranger_mcp.py`, a minimal MCP server whose six tools
all answer with the fixed text "Ranger！".  Python values appearing in the
arguments and in log-record extras are modelled by `PyVal`; the wall clock
read by `datetime.datetime.now()` is modelled by an explicit `PyDateTime`
argument threaded to the operations that consult it.
-/

/-- A `mcp.types.TextContent` value: a kind tag (always "text" here) and a
string payload. -/
structure TextContent where
  type : String
  text : String
deriving DecidableEq, Repr

/-- Python values that occur as tool arguments and as log-extra values in this
program: strings, (unbounded) integers, `None`, and string-keyed mappings with
such values. -/
inductive PyVal where
  | vstr (s : String)
  | vint (n : Int)
  | vnone
deriving DecidableEq, Repr

/-- A Python `dict` with string keys, as an insertion-ordered association
list. -/
def PyDict : Type := List (String × PyVal)

instance : DecidableEq PyDict := by
  unfold PyDict
  infer_instance

/-- Python `repr` of a `str`: quotes with `'` normally, switches to `"` when
the string contains a single quote but no double quote (escaping `\` always,
and the chosen quote character). -/
def pyQuote (s : String) : String :=
  if s.contains (Char.ofNat 39) && !(s.contains (Char.ofNat 34)) then
    String.mk (Char.ofNat 34 :: (s.data.map fun c =>
      if c = Char.ofNat 92 then [Char.ofNat 92, Char.ofNat 92] else [c]).flatten
      ++ [Char.ofNat 34])
  else
    String.mk (Char.ofNat 39 :: (s.data.map fun c =>
      if c = Char.ofNat 92 then [Char.ofNat 92, Char.ofNat 92]
      else if c = Char.ofNat 39 then [Char.ofNat 92, Char.ofNat 39]
      else [c]).flatten ++ [Char.ofNat 39])

/-- Python `repr` of a `PyVal`. -/
def pyReprVal : PyVal → String
  | .vstr s => pyQuote s
  | .vint n => toString n
  | .vnone => "None"

/-- Python `str` of a `dict`, i.e. its `repr`: `\x7b'k': v, ...\x7d`. -/
def pyStrDict (d : PyDict) : String :=
  "\x7b" ++ String.intercalate ", "
    (d.map fun kv => pyQuote kv.1 ++ ": " ++ pyReprVal kv.2) ++ "\x7d"

/-- Python `str` of an `Optional[Dict]`: `"None"` for `None`, else the dict
rendering. -/
def pyStrOptDict : Option PyDict → String
  | none => "None"
  | some d => pyStrDict d

/-- Lift an `Optional[str]` argument to a `PyVal`. -/
def optStrVal : Option String → PyVal
  | none => .vnone
  | some s => .vstr s

/-- Lift an `Optional[int]` argument to a `PyVal`. -/
def optIntVal : Option Int → PyVal
  | none => .vnone
  | some n => .vint n

/-- JSON escaping of one character, as done by `json.dumps` with
`ensure_ascii=False`. -/
def jsonEscapeChar (c : Char) : List Char :=
  if c = Char.ofNat 34 then [Char.ofNat 92, Char.ofNat 34]
  else if c = Char.ofNat 92 then [Char.ofNat 92, Char.ofNat 92]
  else if c = Char.ofNat 10 then [Char.ofNat 92, Char.ofNat 110]
  else if c = Char.ofNat 9 then [Char.ofNat 92, Char.ofNat 116]
  else if c = Char.ofNat 13 then [Char.ofNat 92, Char.ofNat 114]
  else if c = Char.ofNat 8 then [Char.ofNat 92, Char.ofNat 98]
  else if c = Char.ofNat 12 then [Char.ofNat 92, Char.ofNat 102]
  else if c.toNat < 32 then
    [Char.ofNat 92, Char.ofNat 117, Char.ofNat 48, Char.ofNat 48,
     Char.ofNat (48 + c.toNat / 16),
     Char.ofNat (if c.toNat % 16 < 10 then 48 + c.toNat % 16 else 87 + c.toNat % 16)]
  else [c]

/-- JSON rendering of a string literal. -/
def jsonStr (s : String) : String :=
  String.mk (Char.ofNat 34 :: (s.data.map jsonEscapeChar).flatten ++ [Char.ofNat 34])

/-- JSON rendering of one value, as `json.dumps` with `ensure_ascii=False`. -/
def jsonVal : PyVal → String
  | .vstr s => jsonStr s
  | .vint n => toString n
  | .vnone => "null"

/-- `json.dumps` of a string-keyed object with default separators. -/
def jsonDumps (obj : List (String × PyVal)) : String :=
  "\x7b" ++ String.intercalate ", "
    (obj.map fun kv => jsonStr kv.1 ++ ": " ++ jsonVal kv.2) ++ "\x7d"

/-- The `datetime.datetime` value returned by `datetime.datetime.now()`, as
its calendar fields.  A real Python datetime satisfies `1 ≤ year ≤ 9999`,
`1 ≤ month ≤ 12`, `1 ≤ day ≤ 31`, `hour ≤ 23`, `minute ≤ 59`, `second ≤ 59`,
`microsecond ≤ 999999`. -/
structure PyDateTime where
  year : Nat
  month : Nat
  day : Nat
  hour : Nat
  minute : Nat
  second : Nat
  microsecond : Nat
deriving DecidableEq, Repr

/-- The decimal digit character for `n % 10`. -/
def digitChar (n : Nat) : Char := Char.ofNat (48 + n % 10)

/-- Zero-padded two-digit rendering (Python `%02d` for values below 100). -/
def pad2 (n : Nat) : List Char := [digitChar (n / 10), digitChar n]

/-- Zero-padded four-digit rendering (Python `%04d` for values below 10000). -/
def pad4 (n : Nat) : List Char :=
  [digitChar (n / 1000), digitChar (n / 100), digitChar (n / 10), digitChar n]

/-- Zero-padded six-digit rendering (Python `%06d` for values below 1000000). -/
def pad6 (n : Nat) : List Char :=
  [digitChar (n / 100000), digitChar (n / 10000), digitChar (n / 1000),
   digitChar (n / 100), digitChar (n / 10), digitChar n]

/-- The fractional-seconds suffix of `datetime.isoformat()`: empty when the
microsecond field is zero, else `.` followed by six digits. -/
def microPart (us : Nat) : List Char :=
  if us = 0 then [] else Char.ofNat 46 :: pad6 us

/-- `datetime.isoformat()`: `YYYY-MM-DDTHH:MM:SS` with an optional
`.ffffff` suffix. -/
def isoformat (t : PyDateTime) : String :=
  String.mk (pad4 t.year ++ Char.ofNat 45 :: pad2 t.month
    ++ Char.ofNat 45 :: pad2 t.day ++ Char.ofNat 84 :: pad2 t.hour
    ++ Char.ofNat 58 :: pad2 t.minute ++ Char.ofNat 58 :: pad2 t.second
    ++ microPart t.microsecond)

/-- One `logging.LogRecord` as this program creates and formats it: the level
name, logger name, message, optional exception info (kept abstract as a
string), and the optional `extra` mapping attached to the call. -/
structure LogRecord where
  levelname : String
  name : String
  msg : String
  excInfo : Option String
  extra : Option (List (String × PyVal))
deriving DecidableEq, Repr

/-- The logger name (`logging.getLogger(__name__)` with the module run as a
script). -/
def loggerName : String := "__main__"

/-- Build the record emitted by `logger.info(msg)` / `logger.info(msg, extra)`. -/
def infoRecord (msg : String) (extra : Option (List (String × PyVal))) : LogRecord :=
  { levelname := "INFO", name := loggerName, msg := msg, excInfo := none,
    extra := extra }

/-- Build the record emitted by `logger.error(msg)`. -/
def errorRecord (msg : String) : LogRecord :=
  { levelname := "ERROR", name := loggerName, msg := msg, excInfo := none,
    extra := none }

/-- The fixed response text of the server, with the full-width exclamation
glyph. -/
def RANGER : String := "Ranger！"

/-- What one tool call produces: the log records it emits (in order) and the
content list it returns. -/
structure ToolResult where
  logs : List LogRecord
  content : List TextContent
deriving DecidableEq, Repr

/-- Tool `ranger`: logs and returns the fixed text. -/
def ranger : ToolResult :=
  { logs := [infoRecord "ranger function was called" none],
    content := [{ type := "text", text := RANGER }] }

/-- Tool `ranger_with_input`: logs the input as an extra field and returns the
fixed text. -/
def ranger_with_input (input_text : String) : ToolResult :=
  { logs := [infoRecord "ranger_with_input function was called"
      (some [("input", .vstr input_text)])],
    content := [{ type := "text", text := RANGER }] }

/-- The JSON object built by `ranger_json` (and by `ranger_with_options` in
its "json" branch): response text plus the current timestamp. -/
def rangerJsonObj (now : PyDateTime) : List (String × PyVal) :=
  [("response", .vstr RANGER), ("timestamp", .vstr (isoformat now))]

/-- Tool `ranger_json`: logs, then returns the JSON-serialised object. -/
def ranger_json (now : PyDateTime) : ToolResult :=
  { logs := [infoRecord "ranger_json function was called" none],
    content := [{ type := "text", text := jsonDumps (rangerJsonObj now) }] }

/-- Tool `ranger_with_options`: branches on the selector string; "json" gives
the JSON object, "extended" the tripled text, anything else the plain text.
The Python default for the selector is `"simple"`. -/
def ranger_with_options (option_type : String) (now : PyDateTime) : ToolResult :=
  { logs := [infoRecord "ranger_with_options function was called"
      (some [("option", .vstr option_type)])],
    content :=
      if option_type = "json" then
        [{ type := "text", text := jsonDumps (rangerJsonObj now) }]
      else if option_type = "extended" then
        [{ type := "text", text := "Ranger！ Ranger！ Ranger！" }]
      else
        [{ type := "text", text := RANGER }] }

/-- Tool `ranger_with_params`: logs the three optional parameters (the mapping
one through `str(...)`) and returns the fixed text. -/
def ranger_with_params (param1 : Option String) (param2 : Option Int)
    (param3 : Option PyDict) : ToolResult :=
  { logs := [infoRecord "ranger_with_params was called"
      (some [("param1", optStrVal param1), ("param2", optIntVal param2),
             ("param3", .vstr (pyStrOptDict param3))])],
    content := [{ type := "text", text := RANGER }] }

/-- Tool `any_request`: logs the optional request string and the stringified
kwargs mapping and returns the fixed text. -/
def any_request (request : Option String) (kwargs : PyDict) : ToolResult :=
  { logs := [infoRecord "any_request was called"
      (some [("request", optStrVal request), ("args", .vstr (pyStrDict kwargs))])],
    content := [{ type := "text", text := RANGER }] }

/-- One invocation of the tool surface: which of the six registered tools is
called, with its arguments. -/
inductive Invocation where
  | plain
  | withInput (input_text : String)
  | json
  | withOptions (option_type : String)
  | withParams (param1 : Option String) (param2 : Option Int) (param3 : Option PyDict)
  | anyRequest (request : Option String) (kwargs : PyDict)

/-- Dispatch an invocation to its handler, at clock reading `now`. -/
def callTool : Invocation → PyDateTime → ToolResult
  | .plain, _ => ranger
  | .withInput s, _ => ranger_with_input s
  | .json, now => ranger_json now
  | .withOptions s, now => ranger_with_options s now
  | .withParams p1 p2 p3, _ => ranger_with_params p1 p2 p3
  | .anyRequest r k, _ => any_request r k

/-- C1: for every valid invocation of the plain operation (`ranger`), the
response is a list containing exactly one text content item whose text equals
the literal string "Ranger！" with the full-width exclamation glyph. -/
theorem plain_tool_returns_single_ranger_text :
    ranger.content = [{ type := "text", text := "Ranger！" }] := rfl

/-- C2: for every pair of argument assignments to `ranger_with_input`,
`ranger_with_params`, or `any_request`, the two invocations produce the same
response content — the response is a pure function of which operation was
called, not of its argument values. -/
theorem response_independent_of_arguments :
    (∀ a b : String,
      (ranger_with_input a).content = (ranger_with_input b).content) ∧
    (∀ p1 p2 p3 q1 q2 q3,
      (ranger_with_params p1 p2 p3).content = (ranger_with_params q1 q2 q3).content) ∧
    (∀ r k r2 k2,
      (any_request r k).content = (any_request r2 k2).content) :=
  ⟨fun _ _ => rfl, fun _ _ _ _ _ _ => rfl, fun _ _ _ _ => rfl⟩

/-- Python `dict.update`: keys already in `base` keep their position but take
the value from `upd`; keys only in `upd` are appended in order. -/
def dictUpdate (base upd : List (String × PyVal)) : List (String × PyVal) :=
  (base.map fun kv => (kv.1, (upd.lookup kv.1).getD kv.2))
    ++ upd.filter fun kv => !(base.any fun bv => bv.1 == kv.1)

/-- `JsonFormatter.format`: the JSON object built from a record — timestamp
(the formatter reads the clock, passed here as `now`), level, name, message;
then the exception text when `exc_info` is set (`formatException` models the
inherited formatter, kept abstract); then updated with the `extra` mapping
when present.  The serialised line is `jsonDumps` of this object. -/
def JsonFormatter.format (formatException : String → String) (now : String)
    (r : LogRecord) : List (String × PyVal) :=
  let base := [("timestamp", PyVal.vstr now), ("level", PyVal.vstr r.levelname),
               ("name", PyVal.vstr r.name), ("message", PyVal.vstr r.msg)]
  let base := match r.excInfo with
    | some e => base ++ [("exception", PyVal.vstr (formatException e))]
    | none => base
  match r.extra with
  | some ex => dictUpdate base ex
  | none => base

/-- Outcome of `mcp.run(transport="stdio")` as observed by the `__main__`
handlers: either a `KeyboardInterrupt` or some other exception (carrying its
message); a normal return never happens while serving. -/
inductive RunOutcome where
  | interrupted
  | raised (e : String)

/-- What the `__main__` block produces: the process exit code, the log records
emitted, and the human-readable banner lines printed to stderr. -/
structure MainResult where
  exitCode : Nat
  logs : List LogRecord
  banners : List String
deriving Repr

/-- The startup banner printed to stderr. -/
def startBanner : String :=
  "MCP server that responds \x27Ranger!\x27 to everything has started"

/-- The shutdown banner printed to stderr on interrupt. -/
def shutdownBanner : String := "Shutting down Ranger MCP server"

/-- The `__main__` block: log and print the startup banner, run the server;
on `KeyboardInterrupt` log, print the shutdown banner and exit 0; on any
other exception log it as an error and exit 1. -/
def runMain : RunOutcome → MainResult
  | .interrupted =>
    { exitCode := 0,
      logs := [infoRecord "Starting Ranger MCP server" none,
               infoRecord "Server stopped by user" none],
      banners := [startBanner, shutdownBanner] }
  | .raised e =>
    { exitCode := 1,
      logs := [infoRecord "Starting Ranger MCP server" none,
               errorRecord ("Failed to start server: " ++ e)],
      banners := [startBanner] }

/-- The kind selector of an invocation, per the spec contract: "json" for the
`json` tool and the "json" branch of `with-options`, "repeated" for its
"extended" branch, "plain" for everything else. -/
def respKind : Invocation → String
  | .json => "json"
  | .withOptions s =>
      if s = "json" then "json" else if s = "extended" then "repeated" else "plain"
  | _ => "plain"

/-- The content a given kind selector yields, at clock reading `now`. -/
def kindContent (k : String) (now : PyDateTime) : List TextContent :=
  if k = "json" then [{ type := "text", text := jsonDumps (rangerJsonObj now) }]
  else if k = "repeated" then [{ type := "text", text := "Ranger！ Ranger！ Ranger！" }]
  else [{ type := "text", text := RANGER }]

theorem content_eq_kindContent (inv : Invocation) (now : PyDateTime) :
    (callTool inv now).content = kindContent (respKind inv) now := by
  cases inv <;>
    simp [callTool, respKind, kindContent, ranger, ranger_with_input, ranger_json,
      ranger_with_options, ranger_with_params, any_request]
  case withOptions s =>
    by_cases hj : s = "json" <;> by_cases he : s = "extended" <;>
      simp [hj, he]

theorem kindContent_clock_irrelevant (k : String) (t1 t2 : PyDateTime)
    (hk : k ≠ "json") : kindContent k t1 = kindContent k t2 := by
  simp [kindContent, hk]

/-- A fixed in-range clock reading used for concrete instantiations. -/
def sampleClock : PyDateTime :=
  { year := 2024, month := 5, day := 17, hour := 12, minute := 34, second := 56,
    microsecond := 0 }

/-- A second in-range clock reading, one second later. -/
def sampleClock2 : PyDateTime :=
  { year := 2024, month := 5, day := 17, hour := 12, minute := 34, second := 57,
    microsecond := 0 }

/-- C3 counterexample: the `json` operation is not deterministic across runs —
two runs of the same invocation at different clock readings return different
responses, so the response does not depend only on the kind selector. -/
theorem json_response_varies_with_clock :
    (callTool Invocation.json sampleClock).content
      ≠ (callTool Invocation.json sampleClock2).content := by
  decide

/-- C3 amended: the response content of every operation is determined by the
invocation's kind selector together with the clock reading, never by the other
argument values; and the clock matters only for the "json" kind — operations
of any other kind are fully deterministic. -/
theorem response_determined_by_kind_and_clock
    (inv inv2 : Invocation) (t t2 : PyDateTime)
    (hk : respKind inv = respKind inv2)
    (ht : respKind inv = "json" → t = t2) :
    (callTool inv t).content = (callTool inv2 t2).content := by
  rw [content_eq_kindContent, content_eq_kindContent, ← hk]
  by_cases hj : respKind inv = "json"
  · rw [ht hj]
  · exact kindContent_clock_irrelevant _ _ _ hj

/-- C3 amended, witnessed at concrete inputs: `with-params` and `catch-all`
invocations with different argument values and different clock readings share
one response. -/
theorem response_determined_by_kind_and_clock_witness :
    respKind (Invocation.withParams (some "a") none none)
        = respKind (Invocation.anyRequest none [("x", PyVal.vint 1)])
      ∧ (callTool (Invocation.withParams (some "a") none none) sampleClock).content
        = (callTool (Invocation.anyRequest none [("x", PyVal.vint 1)]) sampleClock2).content :=
  ⟨by decide,
   response_determined_by_kind_and_clock _ _ _ _ (by decide) (by decide)⟩

/-- The extra fields each tool attaches to its log record: the invocation's
non-ignored arguments, with the structured (mapping) arguments coerced to
string via Python `str`. -/
def expectedExtra : Invocation → Option (List (String × PyVal))
  | .plain => none
  | .withInput s => some [("input", .vstr s)]
  | .json => none
  | .withOptions s => some [("option", .vstr s)]
  | .withParams p1 p2 p3 =>
      some [("param1", optStrVal p1), ("param2", optIntVal p2),
            ("param3", .vstr (pyStrOptDict p3))]
  | .anyRequest r k =>
      some [("request", optStrVal r), ("args", .vstr (pyStrDict k))]

/-- C4: every tool call emits exactly one log record, its level is INFO, its
message is non-empty, and its extra fields are exactly the invocation's
non-ignored arguments with structured values coerced to string. -/
theorem each_call_emits_one_info_record (inv : Invocation) (t : PyDateTime) :
    ∃ r, (callTool inv t).logs = [r] ∧ r.levelname = "INFO" ∧ r.msg ≠ ""
      ∧ r.extra = expectedExtra inv := by
  cases inv <;> refine ⟨_, rfl, rfl, ?_, rfl⟩ <;> simp [infoRecord]

theorem digitChar_isDigit (n : Nat) : (digitChar n).isDigit = true := by
  unfold digitChar
  have h : n % 10 < 10 := Nat.mod_lt _ (by norm_num)
  set k := n % 10 with hk
  interval_cases k <;> decide

/-- Checks that a string has the shape of an ISO-8601 datetime as produced by
`datetime.isoformat()`: `YYYY-MM-DDTHH:MM:SS`, optionally followed by a
`.ffffff` fraction. -/
def isValidIso (s : String) : Bool :=
  match s.data with
  | [y1, y2, y3, y4, a1, m1, m2, a2, d1, d2, a3, h1, h2, a4, n1, n2, a5, s1, s2] =>
      y1.isDigit && y2.isDigit && y3.isDigit && y4.isDigit
      && m1.isDigit && m2.isDigit && d1.isDigit && d2.isDigit
      && h1.isDigit && h2.isDigit && n1.isDigit && n2.isDigit
      && s1.isDigit && s2.isDigit
      && (a1 == Char.ofNat 45) && (a2 == Char.ofNat 45) && (a3 == Char.ofNat 84)
      && (a4 == Char.ofNat 58) && (a5 == Char.ofNat 58)
  | [y1, y2, y3, y4, a1, m1, m2, a2, d1, d2, a3, h1, h2, a4, n1, n2, a5, s1, s2,
     a6, f1, f2, f3, f4, f5, f6] =>
      y1.isDigit && y2.isDigit && y3.isDigit && y4.isDigit
      && m1.isDigit && m2.isDigit && d1.isDigit && d2.isDigit
      && h1.isDigit && h2.isDigit && n1.isDigit && n2.isDigit
      && s1.isDigit && s2.isDigit
      && f1.isDigit && f2.isDigit && f3.isDigit && f4.isDigit
      && f5.isDigit && f6.isDigit
      && (a1 == Char.ofNat 45) && (a2 == Char.ofNat 45) && (a3 == Char.ofNat 84)
      && (a4 == Char.ofNat 58) && (a5 == Char.ofNat 58) && (a6 == Char.ofNat 46)
  | _ => false

theorem isoformat_valid (t : PyDateTime) : isValidIso (isoformat t) = true := by
  by_cases h : t.microsecond = 0
  · simp [isoformat, pad4, pad2, pad6, microPart, h, isValidIso, digitChar_isDigit]
  · simp [isoformat, pad4, pad2, pad6, microPart, h, isValidIso, digitChar_isDigit]

/-- C5: for every invocation of the `json` operation at an in-range clock
reading, the single text payload is the JSON serialisation of an object whose
keys are exactly \x7b"response", "timestamp"\x7d, whose "response" value is
"Ranger！", and whose "timestamp" value is the clock's `isoformat()` rendering,
which is a valid ISO-8601 datetime. -/
theorem json_tool_output_wellformed (t : PyDateTime)
    (hy1 : 1 ≤ t.year) (hy2 : t.year ≤ 9999)
    (hmo1 : 1 ≤ t.month) (hmo2 : t.month ≤ 12)
    (hd1 : 1 ≤ t.day) (hd2 : t.day ≤ 31)
    (hh : t.hour ≤ 23) (hmi : t.minute ≤ 59) (hs : t.second ≤ 59)
    (hus : t.microsecond ≤ 999999) :
    (ranger_json t).content
        = [{ type := "text", text := jsonDumps (rangerJsonObj t) }]
      ∧ (rangerJsonObj t).map Prod.fst = ["response", "timestamp"]
      ∧ (rangerJsonObj t).lookup "response" = some (PyVal.vstr "Ranger！")
      ∧ (rangerJsonObj t).lookup "timestamp" = some (PyVal.vstr (isoformat t))
      ∧ isValidIso (isoformat t) = true :=
  ⟨rfl, rfl, rfl, rfl, isoformat_valid t⟩

/-- C5 witnessed at the concrete clock reading `sampleClock`. -/
theorem json_tool_output_wellformed_witness :
    (1 ≤ sampleClock.year ∧ sampleClock.year ≤ 9999 ∧ 1 ≤ sampleClock.month
      ∧ sampleClock.month ≤ 12 ∧ 1 ≤ sampleClock.day ∧ sampleClock.day ≤ 31
      ∧ sampleClock.hour ≤ 23 ∧ sampleClock.minute ≤ 59 ∧ sampleClock.second ≤ 59
      ∧ sampleClock.microsecond ≤ 999999)
    ∧ ((ranger_json sampleClock).content
        = [{ type := "text", text := jsonDumps (rangerJsonObj sampleClock) }]
      ∧ (rangerJsonObj sampleClock).map Prod.fst = ["response", "timestamp"]
      ∧ (rangerJsonObj sampleClock).lookup "response" = some (PyVal.vstr "Ranger！")
      ∧ (rangerJsonObj sampleClock).lookup "timestamp"
          = some (PyVal.vstr (isoformat sampleClock))
      ∧ isValidIso (isoformat sampleClock) = true) :=
  ⟨by decide,
   json_tool_output_wellformed sampleClock (by decide) (by decide) (by decide)
     (by decide) (by decide) (by decide) (by decide) (by decide) (by decide)
     (by decide)⟩

/-- C6: invoking `with-options` with selector "json" produces content
identical to the `json` operation's content at the same clock reading. -/
theorem with_options_json_refines_json_tool (t : PyDateTime) :
    (ranger_with_options "json" t).content = (ranger_json t).content := rfl

/-- C7: for every selector other than "json" and "extended" — including the
default selector "simple" — `with-options` returns the plain operation's
content, and `with-options("extended")` returns the tripled text. -/
theorem with_options_other_selectors (s : String) (t : PyDateTime)
    (h1 : s ≠ "json") (h2 : s ≠ "extended") :
    (ranger_with_options s t).content = ranger.content
      ∧ (ranger_with_options "simple" t).content = ranger.content
      ∧ (ranger_with_options "extended" t).content
          = [{ type := "text", text := "Ranger！ Ranger！ Ranger！" }] := by
  refine ⟨?_, rfl, rfl⟩
  simp [ranger_with_options, ranger, h1, h2]

/-- C7 witnessed at the concrete selector "anything-else". -/
theorem with_options_other_selectors_witness :
    ("anything-else" ≠ "json" ∧ "anything-else" ≠ "extended")
    ∧ ((ranger_with_options "anything-else" sampleClock).content = ranger.content
      ∧ (ranger_with_options "simple" sampleClock).content = ranger.content
      ∧ (ranger_with_options "extended" sampleClock).content
          = [{ type := "text", text := "Ranger！ Ranger！ Ranger！" }]) :=
  ⟨⟨by decide, by decide⟩,
   with_options_other_selectors "anything-else" sampleClock (by decide) (by decide)⟩

/-- C8: for each of the six tool operations and every accepted argument
assignment, the return value is a list of exactly one content item whose kind
tag is "text". -/
theorem all_tools_return_one_text_item (inv : Invocation) (t : PyDateTime) :
    ∃ s, (callTool inv t).content = [{ type := "text", text := s }] := by
  cases inv
  case plain => exact ⟨_, rfl⟩
  case withInput s => exact ⟨_, rfl⟩
  case json => exact ⟨_, rfl⟩
  case withOptions s =>
    by_cases hj : s = "json"
    · exact ⟨jsonDumps (rangerJsonObj t), by simp [callTool, ranger_with_options, hj]⟩
    · by_cases he : s = "extended"
      · exact ⟨"Ranger！ Ranger！ Ranger！",
          by simp [callTool, ranger_with_options, hj, he]⟩
      · exact ⟨RANGER, by simp [callTool, ranger_with_options, hj, he]⟩
  case withParams p1 p2 p3 => exact ⟨_, rfl⟩
  case anyRequest r k => exact ⟨_, rfl⟩

/-- C9: the process exits with code 0 on a user interrupt of the serve loop,
after logging the shutdown and printing the shutdown banner; and exits with
code 1 when any other exception escapes serve-loop startup, after logging it
as an error. -/
theorem main_exit_code_behaviour :
    ((runMain RunOutcome.interrupted).exitCode = 0
      ∧ (runMain RunOutcome.interrupted).banners = [startBanner, shutdownBanner]
      ∧ (runMain RunOutcome.interrupted).logs.map LogRecord.levelname
          = ["INFO", "INFO"])
    ∧ ∀ e, (runMain (RunOutcome.raised e)).exitCode = 1
      ∧ (runMain (RunOutcome.raised e)).logs.getLast?
          = some (errorRecord ("Failed to start server: " ++ e))
      ∧ (errorRecord ("Failed to start server: " ++ e)).levelname = "ERROR" :=
  ⟨⟨rfl, rfl, rfl⟩, fun e => ⟨rfl, rfl, rfl⟩⟩

/-- C10 counterexample: when the record's extra mapping itself binds the key
"exception", `dict.update` overwrites the formatted exception text, so the
formatter's output does not hold the formatted exception text for that key. -/
theorem formatter_exception_key_shadowed :
    (JsonFormatter.format (fun e => "TB:" ++ e) "T"
        { levelname := "ERROR", name := "n", msg := "m", excInfo := some "boom",
          extra := some [("exception", PyVal.vstr "shadow")] }).lookup "exception"
      = some (PyVal.vstr "shadow")
    ∧ PyVal.vstr "shadow" ≠ PyVal.vstr ("TB:" ++ "boom") := by
  refine ⟨rfl, ?_⟩
  decide

/-- C10 amended: for every log record with exception info set whose extra
mapping (if any) does not itself bind the key "exception", the formatter's
JSON object holds, beyond the documented timestamp/level/name/message keys,
an additional "exception" key with the formatted exception text. -/
theorem formatter_adds_exception_key (f : String → String) (now : String)
    (r : LogRecord) (e : String) (he : r.excInfo = some e)
    (hsh : ∀ ex, r.extra = some ex → ex.lookup "exception" = none) :
    (JsonFormatter.format f now r).lookup "exception" = some (PyVal.vstr (f e))
      ∧ "timestamp" ∈ (JsonFormatter.format f now r).map Prod.fst
      ∧ "level" ∈ (JsonFormatter.format f now r).map Prod.fst
      ∧ "name" ∈ (JsonFormatter.format f now r).map Prod.fst
      ∧ "message" ∈ (JsonFormatter.format f now r).map Prod.fst := by
  cases hex : r.extra with
  | none =>
      simp [JsonFormatter.format, he, hex, List.lookup]
  | some ex =>
      have hl : ex.lookup "exception" = none := hsh ex hex
      simp [JsonFormatter.format, he, hex, dictUpdate, List.lookup, hl]

/-- C10 amended, witnessed at a concrete record with exception info and no
extra mapping. -/
theorem formatter_adds_exception_key_witness :
    ({ levelname := "ERROR", name := "n", msg := "m", excInfo := some "boom",
        extra := none : LogRecord }.excInfo = some "boom")
    ∧ ((JsonFormatter.format (fun e => "TB:" ++ e) "T"
          { levelname := "ERROR", name := "n", msg := "m", excInfo := some "boom",
            extra := none }).lookup "exception"
        = some (PyVal.vstr ((fun e => "TB:" ++ e) "boom"))
      ∧ "timestamp" ∈ (JsonFormatter.format (fun e => "TB:" ++ e) "T"
          { levelname := "ERROR", name := "n", msg := "m", excInfo := some "boom",
            extra := none }).map Prod.fst
      ∧ "level" ∈ (JsonFormatter.format (fun e => "TB:" ++ e) "T"
          { levelname := "ERROR", name := "n", msg := "m", excInfo := some "boom",
            extra := none }).map Prod.fst
      ∧ "name" ∈ (JsonFormatter.format (fun e => "TB:" ++ e) "T"
          { levelname := "ERROR", name := "n", msg := "m", excInfo := some "boom",
            extra := none }).map Prod.fst
      ∧ "message" ∈ (JsonFormatter.format (fun e => "TB:" ++ e) "T"
          { levelname := "ERROR", name := "n", msg := "m", excInfo := some "boom",
            extra := none }).map Prod.fst) :=
  ⟨rfl,
   formatter_adds_exception_key (fun e => "TB:" ++ e) "T"
     { levelname := "ERROR", name := "n", msg := "m", excInfo := some "boom",
       extra := none } "boom" rfl (fun ex h => by cases h)⟩
